import Mathlib

/-!
Cloud-provider bootstrap of the kube-controller-manager

A shallow embedding of `createCloudProvider`
(`cmd/kube-controller-manager/app/cloudproviders.go`) together with the
collaborators it calls, followed by the properties established about it.

Go values are rendered as follows.

* An interface value that may be `nil` (`cloudprovider.Interface`, `error`)
  is an `Option`; `none` is the `nil` interface.
* The package-level functions of `k8s.io/cloud-provider` that the function
  calls are the fields of a `Registry` value passed in explicitly.
* Calls that act on the outside world (constructing a provider, logging,
  handing over the informers) are recorded, in program order, in a list of
  `Event`s returned next to the three Go results.
-/

namespace CloudProviders

/-- Modelled from the spec: the type `ControllerLoopMode` (declared in
`controllermanager.go`, outside the two source files). The data model lists
exactly the two values `IncludeCloudLoops` and `ExternalLoops`. -/
inductive ControllerLoopMode where
  | IncludeCloudLoops
  | ExternalLoops
  deriving DecidableEq, Repr

/-- A non-nil Go `error`, observed through the string its `Error()` method
returns (which is what the `%v` verb of `fmt.Errorf` prints). -/
structure GoError where
  msg : String
  deriving DecidableEq, Repr

/-- Modelled from the spec: a non-nil `cloudprovider.Interface` value (the
interface is declared in `k8s.io/cloud-provider`, outside the source files).
The capability set of the data model is `HasClusterID` (mandatory on every
constructed handle) and the optional informer-consumer capability;
`ident` tells provider objects apart.

* `hasClusterID` is what the method `HasClusterID()` answers;
* `informerUser` says whether the dynamic type implements
  `cloudprovider.InformerUser`, i.e. whether the type assertion succeeds. -/
structure Interface where
  ident : Nat
  hasClusterID : Bool
  informerUser : Bool
  deriving DecidableEq, Repr

/-- The `informers.SharedInformerFactory` collaborator: passed through
untouched, so only its identity matters. -/
structure SharedInformerFactory where
  ident : Nat
  deriving DecidableEq, Repr

/-- The `klog.Logger` collaborator; only its identity matters. -/
structure Logger where
  ident : Nat
  deriving DecidableEq, Repr

/-- The functions of package `cloudprovider` called by `createCloudProvider`
that return a value. Their bodies live in `k8s.io/cloud-provider`, outside the
source files, so they are taken as parameters with their Go result types:

* `IsExternal(name) bool`;
* `InitCloudProvider(name, configFilePath) (Interface, error)`;
* `ErrorForDisabledProvider(providerName) error`.

`DisableWarningForProvider(providerName)` returns nothing and is visible only
as an `Event`. -/
structure Registry where
  IsExternal : String → Bool
  InitCloudProvider : String → String → Option Interface × Option GoError
  ErrorForDisabledProvider : String → Option GoError

/-- The externally visible calls made by `createCloudProvider`. -/
inductive Event where
  | InitCloudProvider (name configFilePath : String)
  | DisableWarningForProvider (providerName : String)
  | ErrorForDisabledProvider (providerName : String)
  | HasClusterID (cloud : Interface)
  | Info (logger : Logger) (msg : String)
  | SetInformers (cloud : Interface) (sharedInformers : SharedInformerFactory)
  deriving DecidableEq, Repr

/-- What a call of `createCloudProvider` yields: the three Go results and the
calls it made, oldest first. -/
structure Outcome where
  cloud : Option Interface
  loopMode : ControllerLoopMode
  err : Option GoError
  trace : List Event
  deriving DecidableEq, Repr

/-- The format string of line 57 without its verb. -/
def couldNotInit : String := "cloud provider could not be initialized: "

/-- The result of `fmt.Errorf("cloud provider could not be initialized: %v", err)`
for a non-nil `err`. -/
def wrapInitError (err : GoError) : GoError :=
  ⟨couldNotInit ++ err.msg⟩

/-- The error built on line 64. -/
def noClusterIDError : GoError :=
  ⟨"no ClusterID Found.  A ClusterID is required for the cloud provider to function properly.  This check can be bypassed by setting the allow-untagged-cloud option"⟩

/-- The message logged on line 62. -/
def untaggedWarning : String :=
  "Warning: detected a cluster without a ClusterID.  A ClusterID will be required in the future.  Please tag your cluster to avoid any future issues"

/-- The function `createCloudProvider`, statement by statement. -/
def createCloudProvider (reg : Registry) (logger : Logger) (cloudProvider : String)
    (externalCloudVolumePlugin : String) (cloudConfigFile : String)
    (allowUntaggedCloud : Bool) (sharedInformers : SharedInformerFactory) : Outcome := Id.run do
  let mut cloud : Option Interface := none
  let mut err : Option GoError := none
  let mut loopMode := ControllerLoopMode.ExternalLoops
  let mut trace : List Event := []
  if reg.IsExternal cloudProvider then
    if externalCloudVolumePlugin = "" then
      return ⟨none, loopMode, none, trace⟩
    trace := trace ++ [Event.InitCloudProvider externalCloudVolumePlugin cloudConfigFile]
    let r := reg.InitCloudProvider externalCloudVolumePlugin cloudConfigFile
    cloud := r.1
    err := r.2
  else
    if cloudProvider.length = 0 then
      loopMode := ControllerLoopMode.IncludeCloudLoops
    else
      trace := trace ++ [Event.DisableWarningForProvider cloudProvider]
      trace := trace ++ [Event.ErrorForDisabledProvider cloudProvider]
      err := reg.ErrorForDisabledProvider cloudProvider
  if let some e := err then
    return ⟨none, loopMode, some (wrapInitError e), trace⟩
  if let some c := cloud then
    trace := trace ++ [Event.HasClusterID c]
    if !c.hasClusterID then
      if allowUntaggedCloud then
        trace := trace ++ [Event.Info logger untaggedWarning]
      else
        return ⟨none, loopMode, some noClusterIDError, trace⟩
  if let some informerUserCloud := cloud then
    if informerUserCloud.informerUser then
      trace := trace ++ [Event.SetInformers informerUserCloud sharedInformers]
  return ⟨cloud, loopMode, err, trace⟩

/-! ## Observations used to state the properties -/

/-- Modelled from the spec: the contract of the registry's `errorForDisabled`
(`cloudprovider.ErrorForDisabledProvider`, whose body is in
`k8s.io/cloud-provider`, outside the source files). Step 3 of the decision
protocol has it synthesize the "provider disabled" error for the name it is
given; `reg.disables name` says that `reg` does so for `name`, i.e. that the
error it answers is not `nil`. -/
def Registry.disables (reg : Registry) (name : String) : Bool :=
  (reg.ErrorForDisabledProvider name).isSome

/-- The handle `createCloudProvider` obtains from the registry: the first
result of the call on line 42 when that line is reached, and otherwise the
`nil` that `cloud` holds since line 32. -/
def obtainedCloud (reg : Registry) (cloudProvider externalCloudVolumePlugin cloudConfigFile : String) :
    Option Interface :=
  if reg.IsExternal cloudProvider = true ∧ externalCloudVolumePlugin ≠ "" then
    (reg.InitCloudProvider externalCloudVolumePlugin cloudConfigFile).1
  else none

/-- Whether the type assertion of line 68 succeeds on an interface value; it
fails on `nil`. -/
def supportsInformers : Option Interface → Bool
  | some c => c.informerUser
  | none => false

/-- Tells the `SetInformers` calls from the other events. -/
def Event.isSetInformers : Event → Bool
  | Event.SetInformers _ _ => true
  | _ => false

/-- How many times `SetInformers` was called in a trace. -/
def setInformersCalls (trace : List Event) : Nat :=
  (trace.filter Event.isSetInformers).length

/-- Fatal condition: line 42 was reached and the construction reported an
error. -/
def constructionFailed (reg : Registry) (cloudProvider externalCloudVolumePlugin cloudConfigFile : String) :
    Bool :=
  reg.IsExternal cloudProvider && decide (externalCloudVolumePlugin ≠ "") &&
    (reg.InitCloudProvider externalCloudVolumePlugin cloudConfigFile).2.isSome

/-- Fatal condition: the provider name is a disabled one, that is non-empty
and not external. -/
def disabledName (reg : Registry) (cloudProvider : String) : Bool :=
  decide (cloudProvider ≠ "") && !reg.IsExternal cloudProvider

/-- Fatal condition: a handle was constructed, it lacks a ClusterID and
untagged clusters are not allowed. -/
def missingClusterID (reg : Registry) (cloudProvider externalCloudVolumePlugin cloudConfigFile : String)
    (allowUntaggedCloud : Bool) : Bool :=
  match obtainedCloud reg cloudProvider externalCloudVolumePlugin cloudConfigFile with
  | some c => !c.hasClusterID && !allowUntaggedCloud
  | none => false

/-- A small registry on which the statements are exercised. Only the name
`external` is external; the plugin `tagged` yields a handle with a ClusterID
and the informer capability, `untagged` one without a ClusterID, `plain` one
without the informer capability, and every other plugin name fails to
construct. Every name handed to `ErrorForDisabledProvider` gets an error. -/
def sampleRegistry : Registry where
  IsExternal := fun name => name == "external"
  InitCloudProvider := fun name _ =>
    if name = "tagged" then (some ⟨1, true, true⟩, none)
    else if name = "untagged" then (some ⟨2, false, true⟩, none)
    else if name = "plain" then (some ⟨3, true, false⟩, none)
    else (none, some ⟨"unknown cloud provider"⟩)
  ErrorForDisabledProvider := fun name => some ⟨"cloud provider " ++ name ++ " is disabled"⟩

/-- Tells the calls of the registry's constructor from the other events. -/
def Event.isInitCloudProvider : Event → Bool
  | Event.InitCloudProvider _ _ => true
  | _ => false

/-- How many times `InitCloudProvider` was called in a trace. -/
def initCloudProviderCalls (trace : List Event) : Nat :=
  (trace.filter Event.isInitCloudProvider).length

/-- Tells the calls of `DisableWarningForProvider` from the other events. -/
def Event.isDisableWarning : Event → Bool
  | Event.DisableWarningForProvider _ => true
  | _ => false

/-- How many times `DisableWarningForProvider` was called in a trace. -/
def disableWarningCalls (trace : List Event) : Nat :=
  (trace.filter Event.isDisableWarning).length

/-- A second registry for concrete inputs: only `external` is external, the
constructor answers `nil, nil` for every plugin name (no handle and no error),
and no name gets a disabled-provider error. -/
def silentRegistry : Registry where
  IsExternal := fun name => name == "external"
  InitCloudProvider := fun _ _ => (none, none)
  ErrorForDisabledProvider := fun _ => none

end CloudProviders

/-!
The ControllerRevision listers

`staging/src/k8s.io/client-go/listers/apps/v1/controllerrevision.go` holds the
two typed facades; the generic `listers.ResourceIndexer` they embed and the
`cache.Indexer` behind it are declared elsewhere and are modelled from the
specification.
-/

namespace Listers

/-- Modelled from the spec: an `appsv1.ControllerRevision` (declared in
`k8s.io/api/apps/v1`, outside the source files), reduced to what a lister
reads: the namespace and name that make up its key, and the labels a selector
is matched against. `Revision` stands for the rest of the object. -/
structure ControllerRevision where
  Namespace : String
  Name : String
  Labels : List (String × String)
  Revision : Int
  deriving DecidableEq, Repr

/-- Modelled from the spec: a `labels.Selector` (declared in
`k8s.io/apimachinery`, outside the source files), given by the label sets it
matches. -/
structure Selector where
  Matches : List (String × String) → Bool

/-- Modelled from the spec: the ResourceKey of the data model, the composite of
a namespace and a name; an empty namespace denotes a cluster-scoped lookup. -/
structure ResourceKey where
  Namespace : String
  Name : String
  deriving DecidableEq, Repr

/-- Modelled from the spec: the resource-kind identifier (`schema.GroupResource`,
outside the source files) a ResourceIndexer is bound to and names in its
errors. -/
structure GroupResource where
  Group : String
  Resource : String
  deriving DecidableEq, Repr

/-- Modelled from the spec: `appsv1.Resource` (declared in `k8s.io/api/apps/v1`,
outside the source files), which qualifies a resource name with the group of
the package. -/
def appsv1.Resource (resource : String) : GroupResource :=
  ⟨"apps", resource⟩

/-- Modelled from the spec: the IndexedStore collaborator (`cache.Indexer`,
outside the source files), taken as its content: the cached objects in
enumeration order, each stored under the key made of its namespace and name. -/
structure Indexer where
  objects : List ControllerRevision
  deriving DecidableEq, Repr

/-- Modelled from the spec: the key an object is stored under. -/
def keyOf (obj : ControllerRevision) : ResourceKey :=
  ⟨obj.Namespace, obj.Name⟩

/-- Modelled from the spec: the store's `get(key)`, the object stored under the
key if there is one. -/
def Indexer.GetByKey (indexer : Indexer) (key : ResourceKey) : Option ControllerRevision :=
  indexer.objects.find? (fun obj => decide (keyOf obj = key))

/-- Modelled from the spec: the errors of the indexer's error taxonomy, the
recoverable `NotFound`, which carries the resource kind and the key, and an
error propagated from the backing store. -/
inductive ListerError where
  | NotFound (qualifiedResource : GroupResource) (key : ResourceKey)
  | FromStore (msg : String)
  deriving DecidableEq, Repr

/-- Modelled from the spec: `listers.ResourceIndexer` (declared in
`k8s.io/client-go/listers`, outside the source files). It binds a resource-kind
identifier to the shared store and holds nothing else but an optional
namespace; `ns` empty is the absent namespace, i.e. cluster scope. -/
structure ResourceIndexer where
  indexer : Indexer
  resource : GroupResource
  ns : String
  deriving DecidableEq, Repr

/-- Modelled from the spec: `listers.New`, the cluster-scoped ResourceIndexer
over a store. -/
def New (indexer : Indexer) (resource : GroupResource) : ResourceIndexer :=
  ⟨indexer, resource, ""⟩

/-- Modelled from the spec: `listers.NewNamespaced`, derived from the
cluster-scoped ResourceIndexer plus a namespace value, with no state of its
own. -/
def NewNamespaced (parent : ResourceIndexer) (ns : String) : ResourceIndexer :=
  ⟨parent.indexer, parent.resource, ns⟩

/-- What `List` yields: the two Go results and the store after the call. -/
structure ListResult where
  ret : List ControllerRevision
  err : Option ListerError
  indexer : Indexer
  deriving DecidableEq, Repr

/-- What `Get` yields: the two Go results (`ret` is `none` for the zero value)
and the store after the call. -/
structure GetResult where
  ret : Option ControllerRevision
  err : Option ListerError
  indexer : Indexer
  deriving DecidableEq, Repr

/-- Modelled from the spec: the entries of the store in the scope of a
ResourceIndexer, all of them for a cluster-scoped lookup (empty namespace) and
those of the bound namespace otherwise. -/
def ResourceIndexer.inScope (l : ResourceIndexer) : List ControllerRevision :=
  if l.ns = "" then l.indexer.objects
  else l.indexer.objects.filter (fun obj => decide (obj.Namespace = l.ns))

/-- Modelled from the spec: `ResourceIndexer.List`. It enumerates the entries
of the store that are in scope (all of them for a cluster-scoped lookup, those
of the bound namespace otherwise) and whose labels match the selector; the
result is a snapshot, empty and without error when nothing matches, and the
store is only read. The spec promises no order for the sequence: this function
gives the one result in which the entries come in the order of
`Indexer.objects`, and `ResourceIndexer.mayList` below describes every result
a call may give. -/
def ResourceIndexer.List (l : ResourceIndexer) (selector : Selector) : ListResult :=
  let inScope := if l.ns = "" then l.indexer.objects
    else l.indexer.objects.filter (fun obj => decide (obj.Namespace = l.ns))
  ⟨inScope.filter (fun obj => selector.Matches obj.Labels), none, l.indexer⟩

/-- Modelled from the spec: the results a call of `ResourceIndexer.List` may
give. The spec promises a snapshot sequence of all entries in scope whose
labels match the selector, and no order: the store enumerates in an order of
its own, which may differ from one call to the next and between the cluster
and the namespace listing. So a result is possible exactly when its sequence
is a rearrangement of the matching entries in scope, its error is nil and the
store is the one before the call. -/
def ResourceIndexer.mayList (l : ResourceIndexer) (selector : Selector) (r : ListResult) : Prop :=
  r.ret.Perm (l.inScope.filter (fun obj => selector.Matches obj.Labels)) ∧
    r.err = none ∧ r.indexer = l.indexer

/-- Modelled from the spec: `ResourceIndexer.Get`, the exact-key lookup. It
fails with a `NotFound` error carrying the resource kind and the key when the
key is absent, and the store is only read. -/
def ResourceIndexer.Get (l : ResourceIndexer) (name : String) : GetResult :=
  match l.indexer.GetByKey ⟨l.ns, name⟩ with
  | some obj => ⟨some obj, none, l.indexer⟩
  | none => ⟨none, some (ListerError.NotFound l.resource ⟨l.ns, name⟩), l.indexer⟩

/-- The struct `controllerRevisionLister`: it embeds a ResourceIndexer. -/
structure controllerRevisionLister where
  ResourceIndexer : ResourceIndexer
  deriving DecidableEq, Repr

/-- The struct `controllerRevisionNamespaceLister`: it embeds a
ResourceIndexer. -/
structure controllerRevisionNamespaceLister where
  ResourceIndexer : ResourceIndexer
  deriving DecidableEq, Repr

/-- The function `NewControllerRevisionLister`. -/
def NewControllerRevisionLister (indexer : Indexer) : controllerRevisionLister :=
  ⟨New indexer (appsv1.Resource "controllerrevision")⟩

/-- The method `ControllerRevisions` of `controllerRevisionLister`. -/
def controllerRevisionLister.ControllerRevisions (s : controllerRevisionLister) (ns : String) :
    controllerRevisionNamespaceLister :=
  ⟨NewNamespaced s.ResourceIndexer ns⟩

/-- The method `List` that `controllerRevisionLister` gets from the embedded
ResourceIndexer. -/
def controllerRevisionLister.List (s : controllerRevisionLister) (selector : Selector) : ListResult :=
  s.ResourceIndexer.List selector

/-- The method `List` that `controllerRevisionNamespaceLister` gets from the
embedded ResourceIndexer. -/
def controllerRevisionNamespaceLister.List (s : controllerRevisionNamespaceLister)
    (selector : Selector) : ListResult :=
  s.ResourceIndexer.List selector

/-- The results the method `List` of `controllerRevisionLister` may give,
those of the embedded ResourceIndexer. -/
def controllerRevisionLister.mayList (s : controllerRevisionLister) (selector : Selector)
    (r : ListResult) : Prop :=
  s.ResourceIndexer.mayList selector r

/-- The results the method `List` of `controllerRevisionNamespaceLister` may
give, those of the embedded ResourceIndexer. -/
def controllerRevisionNamespaceLister.mayList (s : controllerRevisionNamespaceLister)
    (selector : Selector) (r : ListResult) : Prop :=
  s.ResourceIndexer.mayList selector r

/-- The method `Get` that `controllerRevisionNamespaceLister` gets from the
embedded ResourceIndexer. -/
def controllerRevisionNamespaceLister.Get (s : controllerRevisionNamespaceLister)
    (name : String) : GetResult :=
  s.ResourceIndexer.Get name

/-- The selector that matches every label set. -/
def everything : Selector := ⟨fun _ => true⟩

/-- The selector that matches the label sets holding the given pair. -/
def hasLabel (key value : String) : Selector :=
  ⟨fun labels => labels.contains (key, value)⟩

/-- A store content for concrete inputs: two revisions in namespace `default`
and one in `kube-system`. -/
def sampleIndexer : Indexer :=
  ⟨[⟨"default", "web-1", [("app", "web")], 1⟩,
    ⟨"kube-system", "dns-1", [("app", "dns")], 1⟩,
    ⟨"default", "web-2", [("app", "web")], 2⟩]⟩

/-- The first revision of `sampleIndexer` in the namespace `default`. -/
def sampleWeb1 : ControllerRevision := ⟨"default", "web-1", [("app", "web")], 1⟩

/-- The second revision of `sampleIndexer` in the namespace `default`. -/
def sampleWeb2 : ControllerRevision := ⟨"default", "web-2", [("app", "web")], 2⟩

end Listers

namespace CloudProviders

/-! ## The paths through `createCloudProvider` -/

theorem length_eq_zero_iff_empty (s : String) : s.length = 0 ↔ s = "" := by
  constructor
  · intro h
    cases s with
    | mk d =>
      have hd : d = [] := List.length_eq_zero.mp h
      subst hd
      rfl
  · rintro rfl
    rfl

/-- Lines 36 to 41: external provider, no volume plugin. -/
theorem path_external_no_plugin (reg : Registry) (logger : Logger) (p cfg : String) (allow : Bool)
    (inf : SharedInformerFactory) (h : reg.IsExternal p = true) :
    createCloudProvider reg logger p "" cfg allow inf =
      ⟨none, ControllerLoopMode.ExternalLoops, none, []⟩ := by
  simp [createCloudProvider, h, Id.run]

/-- Lines 42 and 56 to 58: the construction reports an error. -/
theorem path_init_error (reg : Registry) (logger : Logger) (p plugin cfg : String) (allow : Bool)
    (inf : SharedInformerFactory) (h : reg.IsExternal p = true) (hp : plugin ≠ "") (E : GoError)
    (hE : (reg.InitCloudProvider plugin cfg).2 = some E) :
    createCloudProvider reg logger p plugin cfg allow inf =
      ⟨none, ControllerLoopMode.ExternalLoops, some (wrapInitError E),
        [Event.InitCloudProvider plugin cfg]⟩ := by
  simp [createCloudProvider, h, hp, hE, Id.run]

/-- Line 42 answers `nil, nil`: nothing is checked and nothing injected. -/
theorem path_init_nil (reg : Registry) (logger : Logger) (p plugin cfg : String) (allow : Bool)
    (inf : SharedInformerFactory) (h : reg.IsExternal p = true) (hp : plugin ≠ "")
    (hE : reg.InitCloudProvider plugin cfg = (none, none)) :
    createCloudProvider reg logger p plugin cfg allow inf =
      ⟨none, ControllerLoopMode.ExternalLoops, none, [Event.InitCloudProvider plugin cfg]⟩ := by
  simp [createCloudProvider, h, hp, hE, Id.run]

/-- A handle with a ClusterID is constructed. -/
theorem path_tagged (reg : Registry) (logger : Logger) (p plugin cfg : String) (allow : Bool)
    (inf : SharedInformerFactory) (h : reg.IsExternal p = true) (hp : plugin ≠ "") (c : Interface)
    (hE : reg.InitCloudProvider plugin cfg = (some c, none)) (hc : c.hasClusterID = true) :
    createCloudProvider reg logger p plugin cfg allow inf =
      ⟨some c, ControllerLoopMode.ExternalLoops, none,
        [Event.InitCloudProvider plugin cfg, Event.HasClusterID c] ++
          (if c.informerUser = true then [Event.SetInformers c inf] else [])⟩ := by
  cases hi : c.informerUser <;> simp [createCloudProvider, h, hp, hE, hc, hi, Id.run]

/-- A handle without a ClusterID is constructed and untagged clusters are
refused (lines 60 to 65). -/
theorem path_untagged_refused (reg : Registry) (logger : Logger) (p plugin cfg : String)
    (inf : SharedInformerFactory) (h : reg.IsExternal p = true) (hp : plugin ≠ "") (c : Interface)
    (hE : reg.InitCloudProvider plugin cfg = (some c, none)) (hc : c.hasClusterID = false) :
    createCloudProvider reg logger p plugin cfg false inf =
      ⟨none, ControllerLoopMode.ExternalLoops, some noClusterIDError,
        [Event.InitCloudProvider plugin cfg, Event.HasClusterID c]⟩ := by
  simp [createCloudProvider, h, hp, hE, hc, Id.run]

/-- A handle without a ClusterID is constructed and untagged clusters are
allowed (lines 60 to 62, then 68 to 71). -/
theorem path_untagged_allowed (reg : Registry) (logger : Logger) (p plugin cfg : String)
    (inf : SharedInformerFactory) (h : reg.IsExternal p = true) (hp : plugin ≠ "") (c : Interface)
    (hE : reg.InitCloudProvider plugin cfg = (some c, none)) (hc : c.hasClusterID = false) :
    createCloudProvider reg logger p plugin cfg true inf =
      ⟨some c, ControllerLoopMode.ExternalLoops, none,
        [Event.InitCloudProvider plugin cfg, Event.HasClusterID c,
            Event.Info logger untaggedWarning] ++
          (if c.informerUser = true then [Event.SetInformers c inf] else [])⟩ := by
  cases hi : c.informerUser <;> simp [createCloudProvider, h, hp, hE, hc, hi, Id.run]

/-- Lines 48 and 49: no provider name. -/
theorem path_no_provider (reg : Registry) (logger : Logger) (plugin cfg : String) (allow : Bool)
    (inf : SharedInformerFactory) (h : reg.IsExternal "" = false) :
    createCloudProvider reg logger "" plugin cfg allow inf =
      ⟨none, ControllerLoopMode.IncludeCloudLoops, none, []⟩ := by
  simp [createCloudProvider, h, Id.run]

/-- Lines 50 to 58: a named in-process provider. -/
theorem path_disabled (reg : Registry) (logger : Logger) (p plugin cfg : String) (allow : Bool)
    (inf : SharedInformerFactory) (h : reg.IsExternal p = false) (hp : p ≠ "") :
    createCloudProvider reg logger p plugin cfg allow inf =
      ⟨none, ControllerLoopMode.ExternalLoops,
        (reg.ErrorForDisabledProvider p).map wrapInitError,
        [Event.DisableWarningForProvider p, Event.ErrorForDisabledProvider p]⟩ := by
  have hl : ¬ p.length = 0 := fun h0 => hp ((length_eq_zero_iff_empty p).mp h0)
  cases hD : reg.ErrorForDisabledProvider p <;>
    simp [createCloudProvider, h, hl, hD, Id.run]

/-- The ClusterID error is not a wrapped construction error: the two messages
start differently. -/
theorem noClusterIDError_ne_wrapInitError (E : GoError) : noClusterIDError ≠ wrapInitError E := by
  intro h
  have h2 := congrArg (fun e => e.msg.data.head?) h
  simp [noClusterIDError, wrapInitError, couldNotInit] at h2

/-- Every call of `createCloudProvider` takes exactly one of eight paths. -/
theorem outcome_cases (reg : Registry) (logger : Logger) (p plugin cfg : String) (allow : Bool)
    (inf : SharedInformerFactory) :
    (reg.IsExternal p = true ∧ plugin = "" ∧
      createCloudProvider reg logger p plugin cfg allow inf =
        ⟨none, ControllerLoopMode.ExternalLoops, none, []⟩) ∨
    (reg.IsExternal p = true ∧ plugin ≠ "" ∧
      ∃ E, (reg.InitCloudProvider plugin cfg).2 = some E ∧
        createCloudProvider reg logger p plugin cfg allow inf =
          ⟨none, ControllerLoopMode.ExternalLoops, some (wrapInitError E),
            [Event.InitCloudProvider plugin cfg]⟩) ∨
    (reg.IsExternal p = true ∧ plugin ≠ "" ∧
      reg.InitCloudProvider plugin cfg = (none, none) ∧
        createCloudProvider reg logger p plugin cfg allow inf =
          ⟨none, ControllerLoopMode.ExternalLoops, none, [Event.InitCloudProvider plugin cfg]⟩) ∨
    (reg.IsExternal p = true ∧ plugin ≠ "" ∧
      ∃ c, reg.InitCloudProvider plugin cfg = (some c, none) ∧ c.hasClusterID = true ∧
        createCloudProvider reg logger p plugin cfg allow inf =
          ⟨some c, ControllerLoopMode.ExternalLoops, none,
            [Event.InitCloudProvider plugin cfg, Event.HasClusterID c] ++
              (if c.informerUser = true then [Event.SetInformers c inf] else [])⟩) ∨
    (reg.IsExternal p = true ∧ plugin ≠ "" ∧
      ∃ c, reg.InitCloudProvider plugin cfg = (some c, none) ∧ c.hasClusterID = false ∧
        allow = false ∧
        createCloudProvider reg logger p plugin cfg allow inf =
          ⟨none, ControllerLoopMode.ExternalLoops, some noClusterIDError,
            [Event.InitCloudProvider plugin cfg, Event.HasClusterID c]⟩) ∨
    (reg.IsExternal p = true ∧ plugin ≠ "" ∧
      ∃ c, reg.InitCloudProvider plugin cfg = (some c, none) ∧ c.hasClusterID = false ∧
        allow = true ∧
        createCloudProvider reg logger p plugin cfg allow inf =
          ⟨some c, ControllerLoopMode.ExternalLoops, none,
            [Event.InitCloudProvider plugin cfg, Event.HasClusterID c,
                Event.Info logger untaggedWarning] ++
              (if c.informerUser = true then [Event.SetInformers c inf] else [])⟩) ∨
    (reg.IsExternal p = false ∧ p = "" ∧
      createCloudProvider reg logger p plugin cfg allow inf =
        ⟨none, ControllerLoopMode.IncludeCloudLoops, none, []⟩) ∨
    (reg.IsExternal p = false ∧ p ≠ "" ∧
      createCloudProvider reg logger p plugin cfg allow inf =
        ⟨none, ControllerLoopMode.ExternalLoops,
          (reg.ErrorForDisabledProvider p).map wrapInitError,
          [Event.DisableWarningForProvider p, Event.ErrorForDisabledProvider p]⟩) := by
  cases hext : reg.IsExternal p with
  | true =>
    by_cases hp : plugin = ""
    · left
      subst hp
      exact ⟨rfl, rfl, path_external_no_plugin reg logger p cfg allow inf hext⟩
    · right
      rcases hI : reg.InitCloudProvider plugin cfg with ⟨c, e⟩
      cases e with
      | some E =>
        left
        exact ⟨rfl, hp, E, rfl, path_init_error reg logger p plugin cfg allow inf hext hp E (by rw [hI])⟩
      | none =>
        right
        cases c with
        | none =>
          left
          exact ⟨rfl, hp, rfl, path_init_nil reg logger p plugin cfg allow inf hext hp hI⟩
        | some c =>
          right
          cases hid : c.hasClusterID with
          | true =>
            left
            exact ⟨rfl, hp, c, rfl, hid, path_tagged reg logger p plugin cfg allow inf hext hp c hI hid⟩
          | false =>
            right
            cases allow with
            | false =>
              left
              exact ⟨rfl, hp, c, rfl, hid, rfl,
                path_untagged_refused reg logger p plugin cfg inf hext hp c hI hid⟩
            | true =>
              right; left
              exact ⟨rfl, hp, c, rfl, hid, rfl,
                path_untagged_allowed reg logger p plugin cfg inf hext hp c hI hid⟩
  | false =>
    right; right; right; right; right; right
    by_cases hp : p = ""
    · left
      subst hp
      exact ⟨rfl, rfl, path_no_provider reg logger plugin cfg allow inf hext⟩
    · right
      exact ⟨rfl, hp, path_disabled reg logger p plugin cfg allow inf hext hp⟩

/-! ## Properties of `createCloudProvider` -/

/-- Claim C1. With an empty provider name (the empty name not being external)
`createCloudProvider` returns loop mode `IncludeCloudLoops`, a nil handle and
a nil error, whatever the volume plugin name, the configuration file, the
untagged-cluster flag, the logger and the informers are. -/
theorem C1_empty_provider_includes_cloud_loops (reg : Registry) (logger : Logger)
    (externalCloudVolumePlugin cloudConfigFile : String) (allowUntaggedCloud : Bool)
    (sharedInformers : SharedInformerFactory) (hext : reg.IsExternal "" = false) :
    (createCloudProvider reg logger "" externalCloudVolumePlugin cloudConfigFile
        allowUntaggedCloud sharedInformers).loopMode = ControllerLoopMode.IncludeCloudLoops ∧
    (createCloudProvider reg logger "" externalCloudVolumePlugin cloudConfigFile
        allowUntaggedCloud sharedInformers).cloud = none ∧
    (createCloudProvider reg logger "" externalCloudVolumePlugin cloudConfigFile
        allowUntaggedCloud sharedInformers).err = none := by
  rw [path_no_provider reg logger _ _ _ _ hext]
  exact ⟨rfl, rfl, rfl⟩

/-- The statement of claim C1 at a concrete input of the sample registry. -/
theorem C1_empty_provider_witness :
    sampleRegistry.IsExternal "" = false ∧
    (createCloudProvider sampleRegistry ⟨0⟩ "" "tagged" "/etc/cloud.conf" false ⟨7⟩).loopMode
        = ControllerLoopMode.IncludeCloudLoops ∧
    (createCloudProvider sampleRegistry ⟨0⟩ "" "tagged" "/etc/cloud.conf" false ⟨7⟩).cloud = none ∧
    (createCloudProvider sampleRegistry ⟨0⟩ "" "tagged" "/etc/cloud.conf" false ⟨7⟩).err = none :=
  ⟨by decide,
    C1_empty_provider_includes_cloud_loops sampleRegistry ⟨0⟩ "tagged" "/etc/cloud.conf" false ⟨7⟩
      (by decide)⟩

/-- Claim C2. For a provider name the registry classifies as external and an
empty volume plugin name, `createCloudProvider` returns exactly a nil handle,
`ExternalLoops` and a nil error, whatever the configuration file, the
untagged-cluster flag, the informers and the registry's constructor are. -/
theorem C2_external_without_plugin (reg : Registry) (logger : Logger)
    (cloudProvider cloudConfigFile : String) (allowUntaggedCloud : Bool)
    (sharedInformers : SharedInformerFactory) (hext : reg.IsExternal cloudProvider = true) :
    (createCloudProvider reg logger cloudProvider "" cloudConfigFile
        allowUntaggedCloud sharedInformers).cloud = none ∧
    (createCloudProvider reg logger cloudProvider "" cloudConfigFile
        allowUntaggedCloud sharedInformers).loopMode = ControllerLoopMode.ExternalLoops ∧
    (createCloudProvider reg logger cloudProvider "" cloudConfigFile
        allowUntaggedCloud sharedInformers).err = none := by
  rw [path_external_no_plugin reg logger _ _ _ _ hext]
  exact ⟨rfl, rfl, rfl⟩

/-- The statement of claim C2 at a concrete input of the sample registry. -/
theorem C2_external_without_plugin_witness :
    sampleRegistry.IsExternal "external" = true ∧
    (createCloudProvider sampleRegistry ⟨0⟩ "external" "" "/etc/cloud.conf" true ⟨7⟩).cloud = none ∧
    (createCloudProvider sampleRegistry ⟨0⟩ "external" "" "/etc/cloud.conf" true ⟨7⟩).loopMode
        = ControllerLoopMode.ExternalLoops ∧
    (createCloudProvider sampleRegistry ⟨0⟩ "external" "" "/etc/cloud.conf" true ⟨7⟩).err = none :=
  ⟨by decide,
    C2_external_without_plugin sampleRegistry ⟨0⟩ "external" "/etc/cloud.conf" true ⟨7⟩ (by decide)⟩

/-- Claim C3. For an external provider name and a non-empty volume plugin
name, if the registry's construction for the plugin name and the configuration
file fails with error `E`, then `createCloudProvider` returns a nil handle,
`ExternalLoops`, and an error whose message is exactly
"cloud provider could not be initialized: " followed by the message of `E`. -/
theorem C3_construction_failure_is_wrapped (reg : Registry) (logger : Logger)
    (cloudProvider externalCloudVolumePlugin cloudConfigFile : String) (allowUntaggedCloud : Bool)
    (sharedInformers : SharedInformerFactory) (E : GoError)
    (hext : reg.IsExternal cloudProvider = true) (hplugin : externalCloudVolumePlugin ≠ "")
    (hfail : (reg.InitCloudProvider externalCloudVolumePlugin cloudConfigFile).2 = some E) :
    (createCloudProvider reg logger cloudProvider externalCloudVolumePlugin cloudConfigFile
        allowUntaggedCloud sharedInformers).cloud = none ∧
    (createCloudProvider reg logger cloudProvider externalCloudVolumePlugin cloudConfigFile
        allowUntaggedCloud sharedInformers).loopMode = ControllerLoopMode.ExternalLoops ∧
    ∃ e, (createCloudProvider reg logger cloudProvider externalCloudVolumePlugin cloudConfigFile
        allowUntaggedCloud sharedInformers).err = some e ∧
      e.msg = "cloud provider could not be initialized: " ++ E.msg := by
  rw [path_init_error reg logger _ _ _ _ _ hext hplugin E hfail]
  exact ⟨rfl, rfl, wrapInitError E, rfl, rfl⟩

/-- The statement of claim C3 at a concrete input of the sample registry. -/
theorem C3_construction_failure_witness :
    (sampleRegistry.IsExternal "external" = true ∧ "nosuch" ≠ "" ∧
      (sampleRegistry.InitCloudProvider "nosuch" "/etc/cloud.conf").2
        = some ⟨"unknown cloud provider"⟩) ∧
    (createCloudProvider sampleRegistry ⟨0⟩ "external" "nosuch" "/etc/cloud.conf" true ⟨7⟩).cloud
        = none ∧
    (createCloudProvider sampleRegistry ⟨0⟩ "external" "nosuch" "/etc/cloud.conf" true ⟨7⟩).loopMode
        = ControllerLoopMode.ExternalLoops ∧
    ∃ e, (createCloudProvider sampleRegistry ⟨0⟩ "external" "nosuch" "/etc/cloud.conf" true ⟨7⟩).err
        = some e ∧
      e.msg = "cloud provider could not be initialized: " ++ (GoError.mk "unknown cloud provider").msg :=
  ⟨⟨by decide, by decide, by decide⟩,
    C3_construction_failure_is_wrapped sampleRegistry ⟨0⟩ "external" "nosuch" "/etc/cloud.conf" true
      ⟨7⟩ ⟨"unknown cloud provider"⟩ (by decide) (by decide) (by decide)⟩

/-- Claim C4. For a non-empty provider name that is not external, on a registry
whose `ErrorForDisabledProvider` answers the disabled-provider error for that
name, `createCloudProvider` returns a non-nil error (that error, wrapped) and
a nil handle, and the whole outcome is one and the same for every
configuration file, untagged-cluster flag, volume plugin name, logger and
informers. -/
theorem C4_named_provider_is_disabled (reg : Registry) (cloudProvider : String)
    (hne : cloudProvider ≠ "") (hext : reg.IsExternal cloudProvider = false)
    (hdis : reg.disables cloudProvider = true) :
    ∃ D, reg.ErrorForDisabledProvider cloudProvider = some D ∧
      ∀ (logger : Logger) (externalCloudVolumePlugin cloudConfigFile : String)
        (allowUntaggedCloud : Bool) (sharedInformers : SharedInformerFactory),
        (createCloudProvider reg logger cloudProvider externalCloudVolumePlugin cloudConfigFile
            allowUntaggedCloud sharedInformers).err ≠ none ∧
        createCloudProvider reg logger cloudProvider externalCloudVolumePlugin cloudConfigFile
            allowUntaggedCloud sharedInformers =
          ⟨none, ControllerLoopMode.ExternalLoops, some (wrapInitError D),
            [Event.DisableWarningForProvider cloudProvider,
              Event.ErrorForDisabledProvider cloudProvider]⟩ := by
  cases hD : reg.ErrorForDisabledProvider cloudProvider with
  | none => simp [Registry.disables, hD] at hdis
  | some D =>
    refine ⟨D, rfl, ?_⟩
    intro logger plugin cfg allow inf
    rw [path_disabled reg logger _ plugin cfg allow inf hext hne, hD]
    exact ⟨by simp, rfl⟩

/-- The statement of claim C4 at a concrete input of the sample registry. -/
theorem C4_named_provider_witness :
    ("gce" ≠ "" ∧ sampleRegistry.IsExternal "gce" = false ∧ sampleRegistry.disables "gce" = true) ∧
    ∃ D, sampleRegistry.ErrorForDisabledProvider "gce" = some D ∧
      ∀ (logger : Logger) (externalCloudVolumePlugin cloudConfigFile : String)
        (allowUntaggedCloud : Bool) (sharedInformers : SharedInformerFactory),
        (createCloudProvider sampleRegistry logger "gce" externalCloudVolumePlugin cloudConfigFile
            allowUntaggedCloud sharedInformers).err ≠ none ∧
        createCloudProvider sampleRegistry logger "gce" externalCloudVolumePlugin cloudConfigFile
            allowUntaggedCloud sharedInformers =
          ⟨none, ControllerLoopMode.ExternalLoops, some (wrapInitError D),
            [Event.DisableWarningForProvider "gce", Event.ErrorForDisabledProvider "gce"]⟩ :=
  ⟨⟨by decide, by decide, by decide⟩,
    C4_named_provider_is_disabled sampleRegistry "gce" (by decide) (by decide) (by decide)⟩

/-- Claim C5. When the registry constructs a non-nil handle without error, the
handle has no ClusterID and untagged clusters are not allowed,
`createCloudProvider` returns the fixed ClusterID-required error, which is not
a wrapped construction error, together with a nil handle and `ExternalLoops`. -/
theorem C5_untagged_cluster_refused (reg : Registry) (logger : Logger)
    (cloudProvider externalCloudVolumePlugin cloudConfigFile : String)
    (sharedInformers : SharedInformerFactory) (c : Interface)
    (hext : reg.IsExternal cloudProvider = true) (hplugin : externalCloudVolumePlugin ≠ "")
    (hinit : reg.InitCloudProvider externalCloudVolumePlugin cloudConfigFile = (some c, none))
    (hid : c.hasClusterID = false) :
    (createCloudProvider reg logger cloudProvider externalCloudVolumePlugin cloudConfigFile
        false sharedInformers).err =
      some ⟨"no ClusterID Found.  A ClusterID is required for the cloud provider to function properly.  This check can be bypassed by setting the allow-untagged-cloud option"⟩ ∧
    (∀ E, (createCloudProvider reg logger cloudProvider externalCloudVolumePlugin cloudConfigFile
        false sharedInformers).err ≠ some (wrapInitError E)) ∧
    (createCloudProvider reg logger cloudProvider externalCloudVolumePlugin cloudConfigFile
        false sharedInformers).cloud = none ∧
    (createCloudProvider reg logger cloudProvider externalCloudVolumePlugin cloudConfigFile
        false sharedInformers).loopMode = ControllerLoopMode.ExternalLoops := by
  rw [path_untagged_refused reg logger _ _ _ _ hext hplugin c hinit hid]
  refine ⟨rfl, ?_, rfl, rfl⟩
  intro E h
  exact noClusterIDError_ne_wrapInitError E (Option.some.inj h)

/-- The statement of claim C5 at a concrete input of the sample registry. -/
theorem C5_untagged_cluster_refused_witness :
    (sampleRegistry.IsExternal "external" = true ∧ "untagged" ≠ "" ∧
      sampleRegistry.InitCloudProvider "untagged" "" = (some ⟨2, false, true⟩, none) ∧
      (Interface.mk 2 false true).hasClusterID = false) ∧
    (createCloudProvider sampleRegistry ⟨0⟩ "external" "untagged" "" false ⟨7⟩).err =
      some ⟨"no ClusterID Found.  A ClusterID is required for the cloud provider to function properly.  This check can be bypassed by setting the allow-untagged-cloud option"⟩ ∧
    (∀ E, (createCloudProvider sampleRegistry ⟨0⟩ "external" "untagged" "" false ⟨7⟩).err
        ≠ some (wrapInitError E)) ∧
    (createCloudProvider sampleRegistry ⟨0⟩ "external" "untagged" "" false ⟨7⟩).cloud = none ∧
    (createCloudProvider sampleRegistry ⟨0⟩ "external" "untagged" "" false ⟨7⟩).loopMode
        = ControllerLoopMode.ExternalLoops :=
  ⟨⟨by decide, by decide, by decide, rfl⟩,
    C5_untagged_cluster_refused sampleRegistry ⟨0⟩ "external" "untagged" "" ⟨7⟩ ⟨2, false, true⟩
      (by decide) (by decide) (by decide) rfl⟩

/-- Claim C6. When the registry constructs a non-nil handle without error, the
handle has no ClusterID and untagged clusters are allowed,
`createCloudProvider` returns a nil error and that same handle, unchanged,
with `ExternalLoops`. -/
theorem C6_untagged_cluster_allowed (reg : Registry) (logger : Logger)
    (cloudProvider externalCloudVolumePlugin cloudConfigFile : String)
    (sharedInformers : SharedInformerFactory) (c : Interface)
    (hext : reg.IsExternal cloudProvider = true) (hplugin : externalCloudVolumePlugin ≠ "")
    (hinit : reg.InitCloudProvider externalCloudVolumePlugin cloudConfigFile = (some c, none))
    (hid : c.hasClusterID = false) :
    (createCloudProvider reg logger cloudProvider externalCloudVolumePlugin cloudConfigFile
        true sharedInformers).err = none ∧
    (createCloudProvider reg logger cloudProvider externalCloudVolumePlugin cloudConfigFile
        true sharedInformers).cloud = some c ∧
    (createCloudProvider reg logger cloudProvider externalCloudVolumePlugin cloudConfigFile
        true sharedInformers).loopMode = ControllerLoopMode.ExternalLoops := by
  rw [path_untagged_allowed reg logger _ _ _ _ hext hplugin c hinit hid]
  exact ⟨rfl, rfl, rfl⟩

/-- The statement of claim C6 at a concrete input of the sample registry. -/
theorem C6_untagged_cluster_allowed_witness :
    (sampleRegistry.IsExternal "external" = true ∧ "untagged" ≠ "" ∧
      sampleRegistry.InitCloudProvider "untagged" "" = (some ⟨2, false, true⟩, none) ∧
      (Interface.mk 2 false true).hasClusterID = false) ∧
    (createCloudProvider sampleRegistry ⟨0⟩ "external" "untagged" "" true ⟨7⟩).err = none ∧
    (createCloudProvider sampleRegistry ⟨0⟩ "external" "untagged" "" true ⟨7⟩).cloud
        = some ⟨2, false, true⟩ ∧
    (createCloudProvider sampleRegistry ⟨0⟩ "external" "untagged" "" true ⟨7⟩).loopMode
        = ControllerLoopMode.ExternalLoops :=
  ⟨⟨by decide, by decide, by decide, rfl⟩,
    C6_untagged_cluster_allowed sampleRegistry ⟨0⟩ "external" "untagged" "" ⟨7⟩ ⟨2, false, true⟩
      (by decide) (by decide) (by decide) rfl⟩

/-- Claim C7 as stated fails: on the sample registry the plugin `untagged`
yields a non-nil handle that supports the informer capability, yet with
untagged clusters refused `SetInformers` is not called at all, because line 64
returns before line 68 is reached. -/
theorem C7_set_informers_counterexample :
    supportsInformers (obtainedCloud sampleRegistry "external" "untagged" "") = true ∧
    setInformersCalls
      (createCloudProvider sampleRegistry ⟨0⟩ "external" "untagged" "" false ⟨7⟩).trace = 0 := by
  decide

/-- Claim C7, amended. For every input `SetInformers` is called exactly once
if the handle obtained from the registry is non-nil, supports the informer
capability and `createCloudProvider` returns a nil error, and zero times
otherwise; every such call is on the obtained handle with the informers that
were passed in. -/
theorem C7_set_informers_once_unless_fatal (reg : Registry) (logger : Logger)
    (cloudProvider externalCloudVolumePlugin cloudConfigFile : String) (allowUntaggedCloud : Bool)
    (sharedInformers : SharedInformerFactory) :
    setInformersCalls (createCloudProvider reg logger cloudProvider externalCloudVolumePlugin cloudConfigFile
        allowUntaggedCloud sharedInformers).trace =
      (if supportsInformers (obtainedCloud reg cloudProvider externalCloudVolumePlugin
            cloudConfigFile) = true ∧
          (createCloudProvider reg logger cloudProvider externalCloudVolumePlugin cloudConfigFile
        allowUntaggedCloud sharedInformers).err = none then 1 else 0) ∧
    ∀ c i, Event.SetInformers c i ∈ (createCloudProvider reg logger cloudProvider externalCloudVolumePlugin cloudConfigFile
        allowUntaggedCloud sharedInformers).trace →
      obtainedCloud reg cloudProvider externalCloudVolumePlugin cloudConfigFile = some c ∧
        i = sharedInformers := by
  rcases outcome_cases reg logger cloudProvider externalCloudVolumePlugin cloudConfigFile
      allowUntaggedCloud sharedInformers with
    ⟨hx, rfl, ho⟩ | ⟨hx, hp, E, hE, ho⟩ | ⟨hx, hp, hI, ho⟩ | ⟨hx, hp, c, hI, hid, ho⟩ |
    ⟨hx, hp, c, hI, hid, ha, ho⟩ | ⟨hx, hp, c, hI, hid, ha, ho⟩ | ⟨hx, rfl, ho⟩ | ⟨hx, hp, ho⟩
  all_goals rw [ho]
  · simp [setInformersCalls, obtainedCloud, supportsInformers, hx]
  · simp [setInformersCalls, obtainedCloud, supportsInformers, hx, hp, Event.isSetInformers]
  · simp [setInformersCalls, obtainedCloud, supportsInformers, hx, hp, hI, Event.isSetInformers]
  · cases hi : c.informerUser <;>
      simp [setInformersCalls, obtainedCloud, supportsInformers, hx, hp, hI, hi,
        Event.isSetInformers]
  · simp [setInformersCalls, obtainedCloud, supportsInformers, hx, hp, hI, Event.isSetInformers]
  · cases hi : c.informerUser <;>
      simp [setInformersCalls, obtainedCloud, supportsInformers, hx, hp, hI, hi,
        Event.isSetInformers]
  · simp [setInformersCalls, obtainedCloud, supportsInformers, hx]
  · cases hD : reg.ErrorForDisabledProvider cloudProvider <;>
      simp [setInformersCalls, obtainedCloud, supportsInformers, hx, hp, hD,
        Event.isSetInformers]

/-- Claim C8. For an external provider name and a non-empty volume plugin
name, if the registry's construction for the plugin name and the configuration
file succeeds with a handle `h` that has a ClusterID, then for both values of
the untagged-cluster flag `createCloudProvider` returns exactly `h`,
`ExternalLoops` and a nil error; the registry's constructor is called with the
plugin name and the configuration file, and with no other arguments (so not
with the provider name). -/
theorem C8_tagged_handle_is_returned (reg : Registry) (logger : Logger)
    (cloudProvider externalCloudVolumePlugin cloudConfigFile : String)
    (sharedInformers : SharedInformerFactory) (h : Interface)
    (hext : reg.IsExternal cloudProvider = true) (hplugin : externalCloudVolumePlugin ≠ "")
    (hinit : reg.InitCloudProvider externalCloudVolumePlugin cloudConfigFile = (some h, none))
    (hid : h.hasClusterID = true) :
    ∀ allowUntaggedCloud : Bool,
      (createCloudProvider reg logger cloudProvider externalCloudVolumePlugin cloudConfigFile
        allowUntaggedCloud sharedInformers).cloud = some h ∧
      (createCloudProvider reg logger cloudProvider externalCloudVolumePlugin cloudConfigFile
        allowUntaggedCloud sharedInformers).loopMode = ControllerLoopMode.ExternalLoops ∧
      (createCloudProvider reg logger cloudProvider externalCloudVolumePlugin cloudConfigFile
        allowUntaggedCloud sharedInformers).err = none ∧
      Event.InitCloudProvider externalCloudVolumePlugin cloudConfigFile ∈ (createCloudProvider reg logger cloudProvider externalCloudVolumePlugin cloudConfigFile
        allowUntaggedCloud sharedInformers).trace ∧
      ∀ name configFilePath, Event.InitCloudProvider name configFilePath ∈ (createCloudProvider reg logger cloudProvider externalCloudVolumePlugin cloudConfigFile
        allowUntaggedCloud sharedInformers).trace →
        name = externalCloudVolumePlugin ∧ configFilePath = cloudConfigFile := by
  intro allowUntaggedCloud
  rw [path_tagged reg logger _ _ _ _ _ hext hplugin h hinit hid]
  refine ⟨rfl, rfl, rfl, by simp, ?_⟩
  intro name configFilePath hmem
  cases hi : h.informerUser <;> simp [hi] at hmem <;> exact hmem

/-- The statement of claim C8 at a concrete input of the sample registry, where
the provider name differs from the plugin name. -/
theorem C8_tagged_handle_witness :
    (sampleRegistry.IsExternal "external" = true ∧ "tagged" ≠ "" ∧
      sampleRegistry.InitCloudProvider "tagged" "/etc/cloud.conf" = (some ⟨1, true, true⟩, none) ∧
      (Interface.mk 1 true true).hasClusterID = true) ∧
    ∀ allowUntaggedCloud : Bool,
      (createCloudProvider sampleRegistry ⟨0⟩ "external" "tagged" "/etc/cloud.conf"
        allowUntaggedCloud ⟨7⟩).cloud = some ⟨1, true, true⟩ ∧
      (createCloudProvider sampleRegistry ⟨0⟩ "external" "tagged" "/etc/cloud.conf"
        allowUntaggedCloud ⟨7⟩).loopMode = ControllerLoopMode.ExternalLoops ∧
      (createCloudProvider sampleRegistry ⟨0⟩ "external" "tagged" "/etc/cloud.conf"
        allowUntaggedCloud ⟨7⟩).err = none ∧
      Event.InitCloudProvider "tagged" "/etc/cloud.conf" ∈
        (createCloudProvider sampleRegistry ⟨0⟩ "external" "tagged" "/etc/cloud.conf"
          allowUntaggedCloud ⟨7⟩).trace ∧
      ∀ name configFilePath, Event.InitCloudProvider name configFilePath ∈
          (createCloudProvider sampleRegistry ⟨0⟩ "external" "tagged" "/etc/cloud.conf"
            allowUntaggedCloud ⟨7⟩).trace →
        name = "tagged" ∧ configFilePath = "/etc/cloud.conf" :=
  ⟨⟨by decide, by decide, by decide, rfl⟩,
    C8_tagged_handle_is_returned sampleRegistry ⟨0⟩ "external" "tagged" "/etc/cloud.conf" ⟨7⟩
      ⟨1, true, true⟩ (by decide) (by decide) (by decide) rfl⟩

/-- Claim C9. On a registry whose `ErrorForDisabledProvider` answers the
disabled-provider error whenever the provider name is a disabled one, the
error returned by `createCloudProvider` is nil if and only if none of the
fatal conditions occurred: the construction did not fail, the provider name
is not a disabled (non-empty, non-external) name, and it is not the case that
a constructed handle lacks a ClusterID while untagged clusters are refused. -/
theorem C9_error_nil_iff_no_fatal_condition (reg : Registry) (logger : Logger)
    (cloudProvider externalCloudVolumePlugin cloudConfigFile : String) (allowUntaggedCloud : Bool)
    (sharedInformers : SharedInformerFactory)
    (hdis : disabledName reg cloudProvider = true → reg.disables cloudProvider = true) :
    (createCloudProvider reg logger cloudProvider externalCloudVolumePlugin cloudConfigFile
        allowUntaggedCloud sharedInformers).err = none ↔
      (constructionFailed reg cloudProvider externalCloudVolumePlugin cloudConfigFile = false ∧
        disabledName reg cloudProvider = false ∧
        missingClusterID reg cloudProvider externalCloudVolumePlugin cloudConfigFile
          allowUntaggedCloud = false) := by
  rcases outcome_cases reg logger cloudProvider externalCloudVolumePlugin cloudConfigFile
      allowUntaggedCloud sharedInformers with
    ⟨hx, rfl, ho⟩ | ⟨hx, hp, E, hE, ho⟩ | ⟨hx, hp, hI, ho⟩ | ⟨hx, hp, c, hI, hid, ho⟩ |
    ⟨hx, hp, c, hI, hid, ha, ho⟩ | ⟨hx, hp, c, hI, hid, ha, ho⟩ | ⟨hx, rfl, ho⟩ | ⟨hx, hp, ho⟩
  all_goals rw [ho]
  · simp [constructionFailed, disabledName, missingClusterID, obtainedCloud, hx]
  · simp [constructionFailed, disabledName, missingClusterID, obtainedCloud, hx, hp, hE]
  · simp [constructionFailed, disabledName, missingClusterID, obtainedCloud, hx, hp, hI]
  · simp [constructionFailed, disabledName, missingClusterID, obtainedCloud, hx, hp, hI, hid]
  · simp [constructionFailed, disabledName, missingClusterID, obtainedCloud, hx, hp, hI, hid, ha]
  · simp [constructionFailed, disabledName, missingClusterID, obtainedCloud, hx, hp, hI, hid, ha]
  · simp [constructionFailed, disabledName, missingClusterID, obtainedCloud, hx]
  · have hd : reg.disables cloudProvider = true := hdis (by simp [disabledName, hx, hp])
    cases hD : reg.ErrorForDisabledProvider cloudProvider with
    | none => simp [Registry.disables, hD] at hd
    | some D => simp [constructionFailed, disabledName, missingClusterID, obtainedCloud, hx, hp]

/-- The statement of claim C9 at a concrete input of the sample registry: a
disabled provider name, for which both sides of the equivalence are false. -/
theorem C9_error_nil_iff_witness :
    (disabledName sampleRegistry "gce" = true ∧ sampleRegistry.disables "gce" = true) ∧
    ((createCloudProvider sampleRegistry ⟨0⟩ "gce" "tagged" "" true ⟨7⟩).err = none ↔
      (constructionFailed sampleRegistry "gce" "tagged" "" = false ∧
        disabledName sampleRegistry "gce" = false ∧
        missingClusterID sampleRegistry "gce" "tagged" "" true = false)) :=
  ⟨by decide,
    C9_error_nil_iff_no_fatal_condition sampleRegistry ⟨0⟩ "gce" "tagged" "" true ⟨7⟩
      (by decide)⟩

/-- Claim C10. For every input the loop mode returned by `createCloudProvider`
is `IncludeCloudLoops` exactly when the provider name is empty and not
external, and `ExternalLoops` in every other case; in particular it is
`ExternalLoops` whenever an error is returned. -/
theorem C10_loop_mode (reg : Registry) (logger : Logger)
    (cloudProvider externalCloudVolumePlugin cloudConfigFile : String) (allowUntaggedCloud : Bool)
    (sharedInformers : SharedInformerFactory) :
    ((createCloudProvider reg logger cloudProvider externalCloudVolumePlugin cloudConfigFile
        allowUntaggedCloud sharedInformers).loopMode = ControllerLoopMode.IncludeCloudLoops ↔
      (cloudProvider = "" ∧ reg.IsExternal cloudProvider = false)) ∧
    ((createCloudProvider reg logger cloudProvider externalCloudVolumePlugin cloudConfigFile
        allowUntaggedCloud sharedInformers).loopMode = ControllerLoopMode.ExternalLoops ↔
      ¬ (cloudProvider = "" ∧ reg.IsExternal cloudProvider = false)) ∧
    ((createCloudProvider reg logger cloudProvider externalCloudVolumePlugin cloudConfigFile
        allowUntaggedCloud sharedInformers).err ≠ none → (createCloudProvider reg logger cloudProvider externalCloudVolumePlugin cloudConfigFile
        allowUntaggedCloud sharedInformers).loopMode = ControllerLoopMode.ExternalLoops) := by
  rcases outcome_cases reg logger cloudProvider externalCloudVolumePlugin cloudConfigFile
      allowUntaggedCloud sharedInformers with
    ⟨hx, rfl, ho⟩ | ⟨hx, hp, E, hE, ho⟩ | ⟨hx, hp, hI, ho⟩ | ⟨hx, hp, c, hI, hid, ho⟩ |
    ⟨hx, hp, c, hI, hid, ha, ho⟩ | ⟨hx, hp, c, hI, hid, ha, ho⟩ | ⟨hx, rfl, ho⟩ | ⟨hx, hp, ho⟩
  all_goals rw [ho]
  · simp [hx]
  · simp [hx, hp]
  · simp [hx, hp]
  · simp [hx, hp]
  · simp [hx, hp]
  · simp [hx, hp]
  · simp [hx]
  · simp [hx, hp]

/-- Claim C11. Whenever `createCloudProvider` returns an error, the error of a
failed construction or of a disabled provider name has a message that begins
with "cloud provider could not be initialized: ", and in the remaining case
the error is the fixed ClusterID-required error (and the ClusterID is indeed
missing); the message of that fixed error does not begin with those words. -/
theorem C11_cluster_id_error_is_distinguishable (reg : Registry) (logger : Logger)
    (cloudProvider externalCloudVolumePlugin cloudConfigFile : String) (allowUntaggedCloud : Bool)
    (sharedInformers : SharedInformerFactory) (e : GoError)
    (herr : (createCloudProvider reg logger cloudProvider externalCloudVolumePlugin cloudConfigFile
        allowUntaggedCloud sharedInformers).err = some e) :
    ((constructionFailed reg cloudProvider externalCloudVolumePlugin cloudConfigFile = true ∨
        disabledName reg cloudProvider = true) →
      ∃ rest, e.msg = "cloud provider could not be initialized: " ++ rest) ∧
    ((constructionFailed reg cloudProvider externalCloudVolumePlugin cloudConfigFile = false ∧
        disabledName reg cloudProvider = false) →
      missingClusterID reg cloudProvider externalCloudVolumePlugin cloudConfigFile
          allowUntaggedCloud = true ∧
        e = noClusterIDError) ∧
    (∀ rest, noClusterIDError.msg ≠ "cloud provider could not be initialized: " ++ rest) := by
  have hfixed : ∀ rest, noClusterIDError.msg ≠
      "cloud provider could not be initialized: " ++ rest := by
    intro rest h
    have h2 := congrArg (fun m => m.data.head?) h
    simp [noClusterIDError] at h2
  rcases outcome_cases reg logger cloudProvider externalCloudVolumePlugin cloudConfigFile
      allowUntaggedCloud sharedInformers with
    ⟨hx, rfl, ho⟩ | ⟨hx, hp, E, hE, ho⟩ | ⟨hx, hp, hI, ho⟩ | ⟨hx, hp, c, hI, hid, ho⟩ |
    ⟨hx, hp, c, hI, hid, ha, ho⟩ | ⟨hx, hp, c, hI, hid, ha, ho⟩ | ⟨hx, rfl, ho⟩ | ⟨hx, hp, ho⟩
  all_goals rw [ho] at herr
  · simp at herr
  · obtain rfl : wrapInitError E = e := by simpa using herr
    refine ⟨fun _ => ⟨E.msg, rfl⟩, ?_, hfixed⟩
    rintro ⟨h1, _⟩
    simp [constructionFailed, hx, hp, hE] at h1
  · simp at herr
  · simp at herr
  · obtain rfl : noClusterIDError = e := by simpa using herr
    refine ⟨?_, ?_, hfixed⟩
    · intro h
      simp [constructionFailed, disabledName, hx, hp, hI] at h
    · intro _
      subst ha
      simp [missingClusterID, obtainedCloud, hx, hp, hI, hid]
  · simp at herr
  · simp at herr
  · cases hD : reg.ErrorForDisabledProvider cloudProvider with
    | none => simp [hD] at herr
    | some D =>
      obtain rfl : wrapInitError D = e := by simpa [hD] using herr
      refine ⟨fun _ => ⟨D.msg, rfl⟩, ?_, hfixed⟩
      rintro ⟨_, h2⟩
      simp [disabledName, hx, hp] at h2

/-- The statement of claim C11 at a concrete input of the sample registry, on
the path where the ClusterID is missing. -/
theorem C11_cluster_id_error_witness :
    (createCloudProvider sampleRegistry ⟨0⟩ "external" "untagged" "" false ⟨7⟩).err
        = some noClusterIDError ∧
    ((constructionFailed sampleRegistry "external" "untagged" "" = true ∨
        disabledName sampleRegistry "external" = true) →
      ∃ rest, noClusterIDError.msg = "cloud provider could not be initialized: " ++ rest) ∧
    ((constructionFailed sampleRegistry "external" "untagged" "" = false ∧
        disabledName sampleRegistry "external" = false) →
      missingClusterID sampleRegistry "external" "untagged" "" false = true ∧
        noClusterIDError = noClusterIDError) ∧
    (∀ rest, noClusterIDError.msg ≠ "cloud provider could not be initialized: " ++ rest) :=
  ⟨by decide,
    C11_cluster_id_error_is_distinguishable sampleRegistry ⟨0⟩ "external" "untagged" "" false ⟨7⟩
      noClusterIDError (by decide)⟩

/-- Claim C15. For every input `createCloudProvider` calls the registry's
constructor at most once, and it calls it if and only if the provider name is
external and the volume plugin name is non-empty; with an empty provider name,
a disabled provider name, or an external name with an empty plugin name, no
provider is constructed. -/
theorem C15_constructor_called_iff_external_with_plugin (reg : Registry) (logger : Logger)
    (cloudProvider externalCloudVolumePlugin cloudConfigFile : String) (allowUntaggedCloud : Bool)
    (sharedInformers : SharedInformerFactory) :
    initCloudProviderCalls (createCloudProvider reg logger cloudProvider externalCloudVolumePlugin cloudConfigFile
        allowUntaggedCloud sharedInformers).trace ≤ 1 ∧
    (initCloudProviderCalls (createCloudProvider reg logger cloudProvider externalCloudVolumePlugin cloudConfigFile
        allowUntaggedCloud sharedInformers).trace = 1 ↔
      (reg.IsExternal cloudProvider = true ∧ externalCloudVolumePlugin ≠ "")) ∧
    (initCloudProviderCalls (createCloudProvider reg logger cloudProvider externalCloudVolumePlugin cloudConfigFile
        allowUntaggedCloud sharedInformers).trace = 0 ↔
      ((reg.IsExternal cloudProvider = false ∧ cloudProvider = "") ∨
        disabledName reg cloudProvider = true ∨
        (reg.IsExternal cloudProvider = true ∧ externalCloudVolumePlugin = ""))) := by
  rcases outcome_cases reg logger cloudProvider externalCloudVolumePlugin cloudConfigFile
      allowUntaggedCloud sharedInformers with
    ⟨hx, rfl, ho⟩ | ⟨hx, hp, E, hE, ho⟩ | ⟨hx, hp, hI, ho⟩ | ⟨hx, hp, c, hI, hid, ho⟩ |
    ⟨hx, hp, c, hI, hid, ha, ho⟩ | ⟨hx, hp, c, hI, hid, ha, ho⟩ | ⟨hx, rfl, ho⟩ | ⟨hx, hp, ho⟩
  all_goals rw [ho]
  · simp [initCloudProviderCalls, disabledName, hx]
  · simp [initCloudProviderCalls, disabledName, Event.isInitCloudProvider, hx, hp]
  · simp [initCloudProviderCalls, disabledName, Event.isInitCloudProvider, hx, hp]
  · cases hi : c.informerUser <;>
      simp [initCloudProviderCalls, disabledName, Event.isInitCloudProvider, hx, hp]
  · simp [initCloudProviderCalls, disabledName, Event.isInitCloudProvider, hx, hp]
  · cases hi : c.informerUser <;>
      simp [initCloudProviderCalls, disabledName, Event.isInitCloudProvider, hx, hp]
  · simp [initCloudProviderCalls, disabledName, hx]
  · simp [initCloudProviderCalls, disabledName, Event.isInitCloudProvider, hx, hp]

/-- Claim C16. If the provider name is external, the volume plugin name is
non-empty and the registry's constructor answers a nil handle together with a
nil error, then for both values of the untagged-cluster flag
`createCloudProvider` returns a nil handle, `ExternalLoops` and a nil error,
and neither `HasClusterID` nor `SetInformers` is called. -/
theorem C16_nil_handle_skips_identity_check (reg : Registry) (logger : Logger)
    (cloudProvider externalCloudVolumePlugin cloudConfigFile : String)
    (sharedInformers : SharedInformerFactory)
    (hext : reg.IsExternal cloudProvider = true) (hplugin : externalCloudVolumePlugin ≠ "")
    (hinit : reg.InitCloudProvider externalCloudVolumePlugin cloudConfigFile = (none, none)) :
    ∀ allowUntaggedCloud : Bool,
      (createCloudProvider reg logger cloudProvider externalCloudVolumePlugin cloudConfigFile
        allowUntaggedCloud sharedInformers).cloud = none ∧
      (createCloudProvider reg logger cloudProvider externalCloudVolumePlugin cloudConfigFile
        allowUntaggedCloud sharedInformers).loopMode = ControllerLoopMode.ExternalLoops ∧
      (createCloudProvider reg logger cloudProvider externalCloudVolumePlugin cloudConfigFile
        allowUntaggedCloud sharedInformers).err = none ∧
      (∀ c, Event.HasClusterID c ∉ (createCloudProvider reg logger cloudProvider externalCloudVolumePlugin cloudConfigFile
        allowUntaggedCloud sharedInformers).trace) ∧
      (∀ c i, Event.SetInformers c i ∉ (createCloudProvider reg logger cloudProvider externalCloudVolumePlugin cloudConfigFile
        allowUntaggedCloud sharedInformers).trace) := by
  intro allowUntaggedCloud
  rw [path_init_nil reg logger _ _ _ _ _ hext hplugin hinit]
  simp

/-- The statement of claim C16 at a concrete input of the registry whose
constructor answers `nil, nil`. -/
theorem C16_nil_handle_witness :
    (silentRegistry.IsExternal "external" = true ∧ "tagged" ≠ "" ∧
      silentRegistry.InitCloudProvider "tagged" "/etc/cloud.conf" = (none, none)) ∧
    ∀ allowUntaggedCloud : Bool,
      (createCloudProvider silentRegistry ⟨0⟩ "external" "tagged" "/etc/cloud.conf"
        allowUntaggedCloud ⟨7⟩).cloud = none ∧
      (createCloudProvider silentRegistry ⟨0⟩ "external" "tagged" "/etc/cloud.conf"
        allowUntaggedCloud ⟨7⟩).loopMode = ControllerLoopMode.ExternalLoops ∧
      (createCloudProvider silentRegistry ⟨0⟩ "external" "tagged" "/etc/cloud.conf"
        allowUntaggedCloud ⟨7⟩).err = none ∧
      (∀ c, Event.HasClusterID c ∉
        (createCloudProvider silentRegistry ⟨0⟩ "external" "tagged" "/etc/cloud.conf"
          allowUntaggedCloud ⟨7⟩).trace) ∧
      (∀ c i, Event.SetInformers c i ∉
        (createCloudProvider silentRegistry ⟨0⟩ "external" "tagged" "/etc/cloud.conf"
          allowUntaggedCloud ⟨7⟩).trace) :=
  ⟨⟨by decide, by decide, rfl⟩,
    C16_nil_handle_skips_identity_check silentRegistry ⟨0⟩ "external" "tagged" "/etc/cloud.conf"
      ⟨7⟩ (by decide) (by decide) rfl⟩

/-- Claim C17. `createCloudProvider` calls `DisableWarningForProvider` exactly
once, with the provider name, when that name is non-empty and not external,
and the call comes before the one of `ErrorForDisabledProvider` that produces
the disabled-provider error; on every other path it is not called at all. -/
theorem C17_disable_warning_precedes_disabled_error (reg : Registry) (logger : Logger)
    (cloudProvider externalCloudVolumePlugin cloudConfigFile : String) (allowUntaggedCloud : Bool)
    (sharedInformers : SharedInformerFactory) :
    disableWarningCalls (createCloudProvider reg logger cloudProvider externalCloudVolumePlugin cloudConfigFile
        allowUntaggedCloud sharedInformers).trace = (if disabledName reg cloudProvider = true then 1 else 0) ∧
    (disabledName reg cloudProvider = true →
      (createCloudProvider reg logger cloudProvider externalCloudVolumePlugin cloudConfigFile
        allowUntaggedCloud sharedInformers).trace = [Event.DisableWarningForProvider cloudProvider,
        Event.ErrorForDisabledProvider cloudProvider]) ∧
    (disabledName reg cloudProvider = false →
      ∀ name, Event.DisableWarningForProvider name ∉ (createCloudProvider reg logger cloudProvider externalCloudVolumePlugin cloudConfigFile
        allowUntaggedCloud sharedInformers).trace) := by
  rcases outcome_cases reg logger cloudProvider externalCloudVolumePlugin cloudConfigFile
      allowUntaggedCloud sharedInformers with
    ⟨hx, rfl, ho⟩ | ⟨hx, hp, E, hE, ho⟩ | ⟨hx, hp, hI, ho⟩ | ⟨hx, hp, c, hI, hid, ho⟩ |
    ⟨hx, hp, c, hI, hid, ha, ho⟩ | ⟨hx, hp, c, hI, hid, ha, ho⟩ | ⟨hx, rfl, ho⟩ | ⟨hx, hp, ho⟩
  all_goals rw [ho]
  · simp [disableWarningCalls, disabledName, hx]
  · simp [disableWarningCalls, disabledName, Event.isDisableWarning, hx]
  · simp [disableWarningCalls, disabledName, Event.isDisableWarning, hx]
  · cases hi : c.informerUser <;>
      simp [disableWarningCalls, disabledName, Event.isDisableWarning, hx]
  · simp [disableWarningCalls, disabledName, Event.isDisableWarning, hx]
  · cases hi : c.informerUser <;>
      simp [disableWarningCalls, disabledName, Event.isDisableWarning, hx]
  · simp [disableWarningCalls, disabledName, hx]
  · simp [disableWarningCalls, disabledName, Event.isDisableWarning, hx, hp]

/-- The statement of claim C17 at a disabled provider name of the sample
registry, where the warning is followed by the disabled-provider error. -/
theorem C17_disable_warning_witness :
    disabledName sampleRegistry "gce" = true ∧
    (createCloudProvider sampleRegistry ⟨0⟩ "gce" "" "" false ⟨7⟩).err ≠ none ∧
    (disableWarningCalls (createCloudProvider sampleRegistry ⟨0⟩ "gce" "" "" false ⟨7⟩).trace
        = (if disabledName sampleRegistry "gce" = true then 1 else 0) ∧
      (disabledName sampleRegistry "gce" = true →
        (createCloudProvider sampleRegistry ⟨0⟩ "gce" "" "" false ⟨7⟩).trace
          = [Event.DisableWarningForProvider "gce", Event.ErrorForDisabledProvider "gce"]) ∧
      (disabledName sampleRegistry "gce" = false →
        ∀ name, Event.DisableWarningForProvider name ∉
          (createCloudProvider sampleRegistry ⟨0⟩ "gce" "" "" false ⟨7⟩).trace)) :=
  ⟨by decide, by decide,
    C17_disable_warning_precedes_disabled_error sampleRegistry ⟨0⟩ "gce" "" "" false ⟨7⟩⟩

/-- Claim C18. For every input, whenever `createCloudProvider` returns a
non-nil error the handle it returns is nil, also when the registry had
constructed a handle. -/
theorem C18_error_implies_nil_handle (reg : Registry) (logger : Logger)
    (cloudProvider externalCloudVolumePlugin cloudConfigFile : String) (allowUntaggedCloud : Bool)
    (sharedInformers : SharedInformerFactory)
    (herr : (createCloudProvider reg logger cloudProvider externalCloudVolumePlugin cloudConfigFile
        allowUntaggedCloud sharedInformers).err ≠ none) :
    (createCloudProvider reg logger cloudProvider externalCloudVolumePlugin cloudConfigFile
        allowUntaggedCloud sharedInformers).cloud = none := by
  revert herr
  rcases outcome_cases reg logger cloudProvider externalCloudVolumePlugin cloudConfigFile
      allowUntaggedCloud sharedInformers with
    ⟨hx, rfl, ho⟩ | ⟨hx, hp, E, hE, ho⟩ | ⟨hx, hp, hI, ho⟩ | ⟨hx, hp, c, hI, hid, ho⟩ |
    ⟨hx, hp, c, hI, hid, ha, ho⟩ | ⟨hx, hp, c, hI, hid, ha, ho⟩ | ⟨hx, rfl, ho⟩ | ⟨hx, hp, ho⟩
  all_goals rw [ho]
  all_goals simp

/-- The statement of claim C18 on the missing-ClusterID path of the sample
registry, where a handle had been constructed. -/
theorem C18_error_implies_nil_handle_witness :
    (obtainedCloud sampleRegistry "external" "untagged" "" = some ⟨2, false, true⟩ ∧
      (createCloudProvider sampleRegistry ⟨0⟩ "external" "untagged" "" false ⟨7⟩).err ≠ none) ∧
    (createCloudProvider sampleRegistry ⟨0⟩ "external" "untagged" "" false ⟨7⟩).cloud = none :=
  ⟨by decide,
    C18_error_implies_nil_handle sampleRegistry ⟨0⟩ "external" "untagged" "" false ⟨7⟩
      (by decide)⟩

/-- Claim C19. For a non-empty, non-external provider name for which the
registry's `ErrorForDisabledProvider` answers a non-nil error `D`, the error
returned by `createCloudProvider` has the message
"cloud provider could not be initialized: " followed by the message of `D`:
the disabled-provider error is wrapped exactly like a construction failure. -/
theorem C19_disabled_error_is_wrapped (reg : Registry) (logger : Logger)
    (cloudProvider externalCloudVolumePlugin cloudConfigFile : String) (allowUntaggedCloud : Bool)
    (sharedInformers : SharedInformerFactory) (D : GoError)
    (hne : cloudProvider ≠ "") (hext : reg.IsExternal cloudProvider = false)
    (hD : reg.ErrorForDisabledProvider cloudProvider = some D) :
    ∃ e, (createCloudProvider reg logger cloudProvider externalCloudVolumePlugin cloudConfigFile
        allowUntaggedCloud sharedInformers).err = some e ∧
      e.msg = "cloud provider could not be initialized: " ++ D.msg ∧ e ≠ D := by
  rw [path_disabled reg logger _ _ _ _ _ hext hne, hD]
  refine ⟨wrapInitError D, rfl, rfl, ?_⟩
  intro h
  have h2 := congrArg (fun x => x.msg.length) h
  simp [wrapInitError, couldNotInit] at h2
  exact absurd h2 (by decide)

/-- The statement of claim C19 at a disabled provider name of the sample
registry. -/
theorem C19_disabled_error_witness :
    ("gce" ≠ "" ∧ sampleRegistry.IsExternal "gce" = false ∧
      sampleRegistry.ErrorForDisabledProvider "gce" = some ⟨"cloud provider gce is disabled"⟩) ∧
    ∃ e, (createCloudProvider sampleRegistry ⟨0⟩ "gce" "tagged" "" true ⟨7⟩).err = some e ∧
      e.msg = "cloud provider could not be initialized: "
        ++ (GoError.mk "cloud provider gce is disabled").msg ∧
      e ≠ ⟨"cloud provider gce is disabled"⟩ :=
  ⟨⟨by decide, by decide, by decide⟩,
    C19_disabled_error_is_wrapped sampleRegistry ⟨0⟩ "gce" "tagged" "" true ⟨7⟩
      ⟨"cloud provider gce is disabled"⟩ (by decide) (by decide) (by decide)⟩

end CloudProviders

namespace Listers

/-! ## Properties of the listers -/

/-- Scoping to a namespace and matching the selector, in either order. -/
theorem filter_scope_comm (objects : List ControllerRevision) (ns : String) (selector : Selector) :
    (objects.filter (fun obj => decide (obj.Namespace = ns))).filter
        (fun obj => selector.Matches obj.Labels) =
      (objects.filter (fun obj => selector.Matches obj.Labels)).filter
        (fun obj => decide (obj.Namespace = ns)) := by
  rw [List.filter_filter, List.filter_filter]
  congr 1
  funext obj
  exact Bool.and_comm _ _

/-- The result `ResourceIndexer.List` computes is one of the results a call
may give. -/
theorem List_mayList (l : ResourceIndexer) (selector : Selector) :
    l.mayList selector (l.List selector) :=
  ⟨List.Perm.refl _, rfl, rfl⟩

/-- Claim C12 as stated fails in two ways. For the empty namespace, over the
sample store, the namespace lister lists all three revisions, while the
cluster-scoped result filtered to the objects whose namespace is empty holds
none. For the namespace `default` and the selector `app=web`, a cluster-scoped
result that comes in the order `web-2`, `web-1` and a namespace result that
comes in the order `web-1`, `web-2` are both possible, and then the namespace
result is not the filtered cluster-scoped result as a sequence. -/
theorem C12_namespace_equality_counterexample :
    ((((NewControllerRevisionLister sampleIndexer).ControllerRevisions "").List everything).ret
        = sampleIndexer.objects ∧
      (((NewControllerRevisionLister sampleIndexer).List everything).ret.filter
        (fun obj => decide (obj.Namespace = ""))) = [] ∧
      (((NewControllerRevisionLister sampleIndexer).ControllerRevisions "").List everything).ret
        ≠ (((NewControllerRevisionLister sampleIndexer).List everything).ret.filter
            (fun obj => decide (obj.Namespace = "")))) ∧
    ((NewControllerRevisionLister sampleIndexer).mayList (hasLabel "app" "web")
        ⟨[sampleWeb2, sampleWeb1], none, sampleIndexer⟩ ∧
      ((NewControllerRevisionLister sampleIndexer).ControllerRevisions "default").mayList
        (hasLabel "app" "web") ⟨[sampleWeb1, sampleWeb2], none, sampleIndexer⟩ ∧
      ([sampleWeb1, sampleWeb2] : List ControllerRevision) ≠
        ([sampleWeb2, sampleWeb1] : List ControllerRevision).filter
          (fun obj => decide (obj.Namespace = "default"))) :=
  ⟨by decide, ⟨by decide, rfl, rfl⟩, ⟨by decide, rfl, rfl⟩, by decide⟩

/-- Claim C12, amended. For every store content, namespace `N` and selector,
take any result the namespace lister obtained through `ControllerRevisions(N)`
may give and any result the cluster-scoped lister may give for the same
selector. For a non-empty `N` the namespace result holds exactly the objects
of the cluster-scoped result whose namespace is `N`, each as often, in an
order that may differ; for the empty `N` it holds exactly the objects of the
cluster-scoped result. In both cases it is a subset of the cluster-scoped
result, and the namespace lister holds nothing but the same indexer, the same
resource kind and `N`. -/
theorem C12_namespace_lister_filters_cluster_lister (indexer : Indexer) (ns : String)
    (selector : Selector) (rc rn : ListResult)
    (hc : (NewControllerRevisionLister indexer).mayList selector rc)
    (hn : ((NewControllerRevisionLister indexer).ControllerRevisions ns).mayList selector rn) :
    (ns ≠ "" → rn.ret.Perm (rc.ret.filter (fun obj => decide (obj.Namespace = ns)))) ∧
    (ns ≠ "" → ∀ obj, obj ∈ rn.ret ↔ (obj ∈ rc.ret ∧ obj.Namespace = ns)) ∧
    (ns = "" → rn.ret.Perm rc.ret) ∧
    (∀ obj, obj ∈ rn.ret → obj ∈ rc.ret) ∧
    ((NewControllerRevisionLister indexer).ControllerRevisions ns).ResourceIndexer =
      ⟨indexer, (NewControllerRevisionLister indexer).ResourceIndexer.resource, ns⟩ := by
  have hcp : rc.ret.Perm (indexer.objects.filter (fun obj => selector.Matches obj.Labels)) :=
    hc.1
  have hne : ns ≠ "" → rn.ret.Perm (rc.ret.filter (fun obj => decide (obj.Namespace = ns))) := by
    intro h
    have hnp : rn.ret.Perm ((indexer.objects.filter (fun obj => decide (obj.Namespace = ns))).filter
        (fun obj => selector.Matches obj.Labels)) := by
      have h1 := hn.1
      simp only [controllerRevisionLister.ControllerRevisions, NewControllerRevisionLister,
        NewNamespaced, New, ResourceIndexer.inScope, if_neg h] at h1
      exact h1
    rw [filter_scope_comm] at hnp
    exact hnp.trans (hcp.filter _).symm
  have he : ns = "" → rn.ret.Perm rc.ret := by
    rintro rfl
    exact (hn.1).trans hcp.symm
  have hmem : ns ≠ "" → ∀ obj, obj ∈ rn.ret ↔ (obj ∈ rc.ret ∧ obj.Namespace = ns) := by
    intro h obj
    rw [(hne h).mem_iff, List.mem_filter]
    simp
  refine ⟨hne, hmem, he, ?_, rfl⟩
  intro obj hobj
  by_cases h : ns = ""
  · exact (he h).mem_iff.mp hobj
  · exact ((hmem h obj).mp hobj).1

/-- The amended statement of claim C12 over the sample store, for the
namespace `default` and the selector `app=web`, with a cluster-scoped result
and a namespace result that come in different orders. -/
theorem C12_namespace_lister_witness :
    ((NewControllerRevisionLister sampleIndexer).mayList (hasLabel "app" "web")
        ⟨[sampleWeb2, sampleWeb1], none, sampleIndexer⟩ ∧
      ((NewControllerRevisionLister sampleIndexer).ControllerRevisions "default").mayList
        (hasLabel "app" "web") ⟨[sampleWeb1, sampleWeb2], none, sampleIndexer⟩) ∧
    (("default" ≠ "" →
        List.Perm [sampleWeb1, sampleWeb2]
          (([sampleWeb2, sampleWeb1] : List ControllerRevision).filter
            (fun obj => decide (obj.Namespace = "default")))) ∧
      ("default" ≠ "" →
        ∀ obj, obj ∈ ([sampleWeb1, sampleWeb2] : List ControllerRevision) ↔
          (obj ∈ ([sampleWeb2, sampleWeb1] : List ControllerRevision) ∧ obj.Namespace = "default")) ∧
      ("default" = "" → List.Perm [sampleWeb1, sampleWeb2] ([sampleWeb2, sampleWeb1] : List ControllerRevision)) ∧
      (∀ obj, obj ∈ ([sampleWeb1, sampleWeb2] : List ControllerRevision) →
        obj ∈ ([sampleWeb2, sampleWeb1] : List ControllerRevision)) ∧
      ((NewControllerRevisionLister sampleIndexer).ControllerRevisions "default").ResourceIndexer =
        ⟨sampleIndexer, (NewControllerRevisionLister sampleIndexer).ResourceIndexer.resource,
          "default"⟩) :=
  ⟨⟨⟨by decide, rfl, rfl⟩, ⟨by decide, rfl, rfl⟩⟩,
    C12_namespace_lister_filters_cluster_lister sampleIndexer "default" (hasLabel "app" "web")
      ⟨[sampleWeb2, sampleWeb1], none, sampleIndexer⟩ ⟨[sampleWeb1, sampleWeb2], none, sampleIndexer⟩
      ⟨by decide, rfl, rfl⟩ ⟨by decide, rfl, rfl⟩⟩

/-- Claim C13. For every namespace and name whose key is absent from the
backing store, `Get` on the namespace lister returns a `NotFound` error that
carries the resource kind `controllerrevision` and the requested key, returns
no object, and leaves the store as it was. -/
theorem C13_get_absent_key_is_not_found (indexer : Indexer) (ns name : String)
    (habsent : ∀ obj ∈ indexer.objects, keyOf obj ≠ ⟨ns, name⟩) :
    (((NewControllerRevisionLister indexer).ControllerRevisions ns).Get name).ret = none ∧
    (∃ qualifiedResource key,
      (((NewControllerRevisionLister indexer).ControllerRevisions ns).Get name).err =
          some (ListerError.NotFound qualifiedResource key) ∧
        qualifiedResource.Resource = "controllerrevision" ∧
        qualifiedResource = (NewControllerRevisionLister indexer).ResourceIndexer.resource ∧
        key = ⟨ns, name⟩) ∧
    (((NewControllerRevisionLister indexer).ControllerRevisions ns).Get name).indexer = indexer := by
  have hnone : indexer.GetByKey ⟨ns, name⟩ = none := by
    rw [Indexer.GetByKey, List.find?_eq_none]
    intro obj hmem
    simpa using habsent obj hmem
  have hget : ((NewControllerRevisionLister indexer).ControllerRevisions ns).Get name =
      ⟨none, some (ListerError.NotFound (appsv1.Resource "controllerrevision") ⟨ns, name⟩),
        indexer⟩ := by
    simp only [controllerRevisionNamespaceLister.Get,
      controllerRevisionLister.ControllerRevisions, NewControllerRevisionLister, NewNamespaced,
      New, ResourceIndexer.Get, hnone]
  rw [hget]
  exact ⟨rfl, ⟨_, _, rfl, rfl, rfl, rfl⟩, rfl⟩

/-- The statement of claim C13 over the sample store: `dns-1` exists, but not
in the namespace `default`. -/
theorem C13_get_absent_key_witness :
    (∀ obj ∈ sampleIndexer.objects, keyOf obj ≠ ⟨"default", "dns-1"⟩) ∧
    (((NewControllerRevisionLister sampleIndexer).ControllerRevisions "default").Get "dns-1").ret
      = none ∧
    (∃ qualifiedResource key,
      (((NewControllerRevisionLister sampleIndexer).ControllerRevisions "default").Get "dns-1").err
          = some (ListerError.NotFound qualifiedResource key) ∧
        qualifiedResource.Resource = "controllerrevision" ∧
        qualifiedResource = (NewControllerRevisionLister sampleIndexer).ResourceIndexer.resource ∧
        key = ⟨"default", "dns-1"⟩) ∧
    (((NewControllerRevisionLister sampleIndexer).ControllerRevisions "default").Get "dns-1").indexer
      = sampleIndexer :=
  ⟨by decide,
    C13_get_absent_key_is_not_found sampleIndexer "default" "dns-1" (by decide)⟩

/-- Claim C14. For every selector, `List` on a cluster-scoped or
namespace-scoped lister over a store in which no object matches the selector,
in particular over an empty store, returns the empty sequence and a nil
error, hence no `NotFound` error. -/
theorem C14_list_without_match_is_empty (indexer : Indexer) (ns : String) (selector : Selector)
    (hnomatch : ∀ obj ∈ indexer.objects, selector.Matches obj.Labels = false) :
    ((NewControllerRevisionLister indexer).List selector).ret = [] ∧
    ((NewControllerRevisionLister indexer).List selector).err = none ∧
    (((NewControllerRevisionLister indexer).ControllerRevisions ns).List selector).ret = [] ∧
    (((NewControllerRevisionLister indexer).ControllerRevisions ns).List selector).err = none ∧
    (∀ qualifiedResource key,
      ((NewControllerRevisionLister indexer).List selector).err ≠
          some (ListerError.NotFound qualifiedResource key) ∧
        (((NewControllerRevisionLister indexer).ControllerRevisions ns).List selector).err ≠
          some (ListerError.NotFound qualifiedResource key)) := by
  have hall : indexer.objects.filter (fun obj => selector.Matches obj.Labels) = [] := by
    rw [List.filter_eq_nil_iff]
    intro obj hmem
    simp [hnomatch obj hmem]
  have hscoped : (indexer.objects.filter (fun obj => decide (obj.Namespace = ns))).filter
      (fun obj => selector.Matches obj.Labels) = [] := by
    rw [filter_scope_comm, hall]
    rfl
  refine ⟨hall, rfl, ?_, rfl, fun _ _ => ⟨by simp [controllerRevisionLister.List,
    ResourceIndexer.List], by simp [controllerRevisionNamespaceLister.List,
    ResourceIndexer.List]⟩⟩
  by_cases h : ns = ""
  · subst h
    exact hall
  · simp only [controllerRevisionNamespaceLister.List,
      controllerRevisionLister.ControllerRevisions, NewControllerRevisionLister, NewNamespaced,
      New, ResourceIndexer.List, if_neg h]
    exact hscoped

/-- The statement of claim C14 over the empty store, and over the sample store
with a selector that none of its objects matches. -/
theorem C14_list_without_match_witness :
    ((∀ obj ∈ (Indexer.mk []).objects, (hasLabel "app" "web").Matches obj.Labels = false) ∧
      ((NewControllerRevisionLister ⟨[]⟩).List (hasLabel "app" "web")).ret = [] ∧
      ((NewControllerRevisionLister ⟨[]⟩).List (hasLabel "app" "web")).err = none ∧
      (((NewControllerRevisionLister ⟨[]⟩).ControllerRevisions "default").List
        (hasLabel "app" "web")).ret = [] ∧
      (((NewControllerRevisionLister ⟨[]⟩).ControllerRevisions "default").List
        (hasLabel "app" "web")).err = none) ∧
    ((∀ obj ∈ sampleIndexer.objects, (hasLabel "app" "db").Matches obj.Labels = false) ∧
      ((NewControllerRevisionLister sampleIndexer).List (hasLabel "app" "db")).ret = [] ∧
      ((NewControllerRevisionLister sampleIndexer).List (hasLabel "app" "db")).err = none ∧
      (((NewControllerRevisionLister sampleIndexer).ControllerRevisions "default").List
        (hasLabel "app" "db")).ret = [] ∧
      (((NewControllerRevisionLister sampleIndexer).ControllerRevisions "default").List
        (hasLabel "app" "db")).err = none) :=
  ⟨⟨by decide,
      (C14_list_without_match_is_empty ⟨[]⟩ "default" (hasLabel "app" "web") (by decide)).1,
      (C14_list_without_match_is_empty ⟨[]⟩ "default" (hasLabel "app" "web") (by decide)).2.1,
      (C14_list_without_match_is_empty ⟨[]⟩ "default" (hasLabel "app" "web") (by decide)).2.2.1,
      (C14_list_without_match_is_empty ⟨[]⟩ "default" (hasLabel "app" "web") (by decide)).2.2.2.1⟩,
    ⟨by decide,
      (C14_list_without_match_is_empty sampleIndexer "default" (hasLabel "app" "db")
        (by decide)).1,
      (C14_list_without_match_is_empty sampleIndexer "default" (hasLabel "app" "db")
        (by decide)).2.1,
      (C14_list_without_match_is_empty sampleIndexer "default" (hasLabel "app" "db")
        (by decide)).2.2.1,
      (C14_list_without_match_is_empty sampleIndexer "default" (hasLabel "app" "db")
        (by decide)).2.2.2.1⟩⟩

end Listers
